import Mathlib

/-
Formal model of the n8n-deployment-project orchestration core.

The definitions below are a shallow embedding of the two central source
files of the repository:

  * src/agents/base_agent.py   — the agent task lifecycle (namespace BA):
    plan → execute-with-monitoring (one retry per failing step) →
    validate → report → metrics update, with every internal exception
    converted into a failure-shaped return value.
  * src/agents/orchestrator.py — the deployment engine (namespace Orch):
    request validation, five-phase master plan construction, sequential
    and parallel phase execution, agent resolution, dependency gating
    and the top-level deploy_infrastructure result shape.

Python exceptions are modelled with `Except String`; the injected,
possibly stateful capability (`execute_primary_function`) is modelled as
a state-passing function so that two successive calls may differ (the
retry logic depends on that).  Wall-clock readings (`time.time()`)
are environmental: each `process_task` call takes its elapsed time as an
explicit rational parameter, and per-step durations are not modelled.
Logging, file writes and asyncio scheduling (the `await` points) have no
effect on the returned data and are omitted; `asyncio.gather` on the
created coroutines is modelled by running the dispatched tasks in order
and collecting their `Except` outcomes, which preserves every data-flow
fact stated below.
-/

/-- Python repr of a list of strings, as produced by an f-string such as
`f"Missing required fields: {missing_fields}"`. -/
def pyReprStrList (xs : List String) : String :=
  "[" ++ String.intercalate ", " (xs.map (fun s => "\x27" ++ s ++ "\x27")) ++ "]"

/-- Python `sub in s` substring test on strings. -/
def containsSub (s sub : String) : Bool :=
  (List.range (s.data.length + 1)).any (fun i => sub.data.isPrefixOf (s.data.drop i))

/-- Python `s.lower()` (character-wise lowering, as all names involved are
ASCII). -/
def pyLower (s : String) : String := String.mk (s.data.map Char.toLower)

/-- Python dict assignment `m[k] = v` on a dict represented as an ordered
association list: an existing key keeps its position and gets the new
value, a new key is appended. -/
def pyInsert {α : Type} (m : List (String × α)) (k : String) (v : α) : List (String × α) :=
  if m.any (fun kv => kv.1 = k) then
    m.map (fun kv => if kv.1 = k then (k, v) else kv)
  else
    m ++ [(k, v)]

/-- Python dict lookup `m[k]` / `m.get(k)` on the ordered-association-list
representation (keys are unique by construction of `pyInsert`). -/
def pyLookup {α : Type} : List (String × α) → String → Option α
  | [], _ => none
  | kv :: rest, k => if kv.1 = k then some kv.2 else pyLookup rest k

namespace BA

/-- One entry of an agent's execution plan, from
`BaseAgent.generate_execution_steps` (src/agents/base_agent.py).  The
`function` tag selects between the primary capability and
`execute_custom_function`; `π` is the type of the step parameters. -/
structure Step (π : Type) where
  step_id : Nat
  description : String
  function : String
  parameters : π
  timeout : Nat

/-- Result entry for one executed step, as appended to `results` in
`execute_with_monitoring`.  The Python dict carries a `recovered` key only
on the recovery path; its absence is modelled as `recovered = false`. -/
structure StepResult (ρ : Type) where
  step_id : Nat
  success : Bool
  result : Option ρ
  error : Option String
  recovered : Bool

/-- Aggregate returned by `execute_with_monitoring` on success
(wall-clock `total_duration` is environmental and not modelled). -/
structure MonResult (ρ : Type) where
  steps_executed : Nat
  steps_successful : Nat
  step_results : List (StepResult ρ)

/-- The injected capability `execute_primary_function`: stateful (state
type `σ`), takes parameters of type `π`, returns `ρ` or raises. -/
def Capability (σ π ρ : Type) : Type := σ → π → Except String ρ × σ

/-- Dispatch of one step body inside `execute_with_monitoring` /
`attempt_step_recovery`: the `execute_primary_function` tag calls the
capability, anything else hits the base `execute_custom_function`, which
raises `NotImplementedError`. -/
def stepCall {σ π ρ : Type} (cap : Capability σ π ρ) (st : σ) (s : Step π) :
    Except String ρ × σ :=
  if s.function = "execute_primary_function" then
    cap st s.parameters
  else
    (Except.error ("Custom function " ++ s.function ++ " not implemented"), st)

/-- Outcome of `attempt_step_recovery` (src/agents/base_agent.py):
sleep 5 seconds (environmental, not modelled), retry the step once. -/
inductive Recovery (ρ : Type) where
  | recovered (r : ρ)
  | failed (e : String)

/-- `BaseAgent.attempt_step_recovery`: one retry of the same step after a
fixed delay; its own exception is caught and reported as not recovered. -/
def attempt_step_recovery {σ π ρ : Type} (cap : Capability σ π ρ) (st : σ) (s : Step π) :
    Recovery ρ × σ :=
  match stepCall cap st s with
  | (Except.ok r, st1) => (Recovery.recovered r, st1)
  | (Except.error e, st1) => (Recovery.failed e, st1)

/-- The step loop of `BaseAgent.execute_with_monitoring`: run each step in
order; on an exception attempt exactly one recovery; if the retry also
fails, raise an error naming the failing step (the partially accumulated
results list is discarded by the raise, as in Python). -/
def monLoop {σ π ρ : Type} (cap : Capability σ π ρ) :
    List (Step π) → σ → Except String (List (StepResult ρ)) × σ
  | [], st => (Except.ok [], st)
  | s :: rest, st =>
    match stepCall cap st s with
    | (Except.ok r, st1) =>
      let tail := monLoop cap rest st1
      (tail.1.map (fun l => { step_id := s.step_id, success := true, result := some r,
                              error := none, recovered := false } :: l), tail.2)
    | (Except.error e, st1) =>
      match attempt_step_recovery cap st1 s with
      | (Recovery.recovered r, st2) =>
        let tail := monLoop cap rest st2
        (tail.1.map (fun l => { step_id := s.step_id, success := true, result := some r,
                                error := none, recovered := true } :: l), tail.2)
      | (Recovery.failed _, st2) =>
        (Except.error ("Step " ++ toString s.step_id ++
                       " failed and could not be recovered: " ++ e), st2)

/-- `BaseAgent.execute_with_monitoring`: run the plan's steps and build the
aggregate result. -/
def execute_with_monitoring {σ π ρ : Type} (cap : Capability σ π ρ)
    (steps : List (Step π)) (st : σ) : Except String (MonResult ρ) × σ :=
  let out := monLoop cap steps st
  (out.1.map (fun results =>
    { steps_executed := results.length,
      steps_successful := (results.filter (fun r => r.success)).length,
      step_results := results }), out.2)

/-- Agent-level task input (`task` dict as consumed by
`BaseAgent.process_task`): `id`/`description` may be absent. -/
structure PTaskIn (π : Type) where
  id : Option String
  description : Option String
  parameters : π
  dependencies : List String := []

/-- `BaseAgent.generate_execution_steps`: always a single step invoking the
primary capability with the task's parameters. -/
def generate_execution_steps {π : Type} (name : String) (task : PTaskIn π) : List (Step π) :=
  [{ step_id := 1,
     description := "Execute " ++ name ++ " primary function",
     function := "execute_primary_function",
     parameters := task.parameters,
     timeout := 300 }]

/-- Subclass hook output of `perform_agent_validation`: a dict with keys
`checks_performed`, `errors`, `warnings` (both the base implementation and
the ServerSetupAgent override return exactly these three keys). -/
structure AgentValidation where
  checks_performed : List String
  errors : List String
  warnings : List String

/-- The base `BaseAgent.perform_agent_validation`. -/
def base_perform_agent_validation {ρ : Type} (_ : MonResult ρ) : AgentValidation :=
  { checks_performed := ["basic_validation"], errors := [], warnings := [] }

/-- Validation dict built by `BaseAgent.validate_execution`. -/
structure Validation where
  valid : Bool
  errors : List String
  warnings : List String
  checks_performed : List String

/-- `BaseAgent.validate_execution`: the base check marks the result invalid
(with a descriptive error) when no step succeeded, then merges the subclass
hook's dict via Python `dict.update`, which REPLACES the `errors`,
`warnings` and `checks_performed` entries wholesale. -/
def validate_execution {ρ : Type} (hook : MonResult ρ → AgentValidation)
    (result : MonResult ρ) : Validation :=
  let validation : Validation :=
    { valid := true, errors := [], warnings := [], checks_performed := [] }
  let validation :=
    if result.steps_successful = 0 then
      { validation with valid := false,
                        errors := validation.errors ++ ["No steps were executed successfully"] }
    else validation
  let av := hook result
  { validation with errors := av.errors, warnings := av.warnings,
                    checks_performed := av.checks_performed }

/-- Task report built by `BaseAgent.generate_task_report` (timestamp and
wall-clock duration are environmental and not modelled). -/
structure Report where
  task_id : Option String
  task_description : Option String
  success : Bool
  steps_completed : Nat
  validation_results : Validation

/-- `BaseAgent.generate_task_report`. -/
def generate_task_report {π ρ : Type} (task : PTaskIn π) (result : MonResult ρ)
    (validation : Validation) : Report :=
  { task_id := task.id,
    task_description := task.description,
    success := validation.valid,
    steps_completed := result.steps_successful,
    validation_results := validation }

/-- Static failure analysis from `BaseAgent.analyze_failure`. -/
structure FailureAnalysis where
  error_category : String
  likely_causes : List String
  severity : String
  impact_assessment : String

/-- `BaseAgent.analyze_failure`. -/
def analyze_failure (_ : String) : FailureAnalysis :=
  { error_category := "execution_error",
    likely_causes := ["configuration_issue", "network_timeout", "permission_error"],
    severity := "medium",
    impact_assessment := "task_specific" }

/-- `BaseAgent.suggest_recovery_actions`. -/
def suggest_recovery_actions (_ : String) : List String :=
  ["Retry with increased timeout",
   "Verify configuration parameters",
   "Check network connectivity",
   "Validate permissions"]

/-- Error report built by `BaseAgent.handle_task_failure`. -/
structure ErrorReport where
  task_id : Option String
  error : String
  failure_analysis : FailureAnalysis
  recovery_suggestions : List String

/-- `BaseAgent.handle_task_failure`. -/
def handle_task_failure {π : Type} (task : PTaskIn π) (error : String) : ErrorReport :=
  { task_id := task.id,
    error := error,
    failure_analysis := analyze_failure error,
    recovery_suggestions := suggest_recovery_actions error }

/-- The agent's running performance metrics (times as rationals). -/
structure PerformanceMetrics where
  tasks_completed : Nat
  tasks_failed : Nat
  total_execution_time : ℚ
  average_task_time : ℚ
  success_rate : ℚ

/-- Metrics at agent construction time. -/
def initial_metrics : PerformanceMetrics :=
  { tasks_completed := 0, tasks_failed := 0, total_execution_time := 0,
    average_task_time := 0, success_rate := 0 }

/-- `BaseAgent.update_performance_metrics`: bump the outcome counter, add
the elapsed time, and recompute the derived averages from the cumulative
totals. -/
def update_performance_metrics (m : PerformanceMetrics) (success : Bool)
    (t : ℚ) : PerformanceMetrics :=
  let m1 := if success then { m with tasks_completed := m.tasks_completed + 1 }
            else { m with tasks_failed := m.tasks_failed + 1 }
  let m2 := { m1 with total_execution_time := m1.total_execution_time + t }
  let total_tasks := m2.tasks_completed + m2.tasks_failed
  if 0 < total_tasks then
    { m2 with average_task_time := m2.total_execution_time / (total_tasks : ℚ),
              success_rate := (m2.tasks_completed : ℚ) / (total_tasks : ℚ) }
  else m2

/-- Return value of `BaseAgent.process_task`: the Python dict has keys
`success`, `execution_time` and either `result`/`report` (success shape)
or `error`/`error_report` (failure shape); absent keys are `none`. -/
structure ProcessResult (ρ : Type) where
  success : Bool
  result : Option (MonResult ρ)
  report : Option Report
  error : Option String
  error_report : Option ErrorReport
  execution_time : ℚ

/-- The part of an agent's mutable state that `process_task` threads:
the capability's own state and the performance metrics. -/
structure AgentState (σ : Type) where
  cap_state : σ
  metrics : PerformanceMetrics

/-- `BaseAgent.process_task`: plan, execute with monitoring, validate,
report, update metrics.  Every internal exception (step failure after a
failed retry, or a validation failure) is caught by the surrounding
`try/except` and converted into the failure-shaped return value; `t` is
the elapsed wall-clock time of the call. -/
def process_task {σ π ρ : Type} (cap : Capability σ π ρ)
    (hook : MonResult ρ → AgentValidation) (name : String)
    (task : PTaskIn π) (t : ℚ) (st : AgentState σ) :
    ProcessResult ρ × AgentState σ :=
  let steps := generate_execution_steps name task
  match execute_with_monitoring cap steps st.cap_state with
  | (Except.error e, cst) =>
    ({ success := false, result := none, report := none,
       error := some e, error_report := some (handle_task_failure task e),
       execution_time := t },
     { cap_state := cst, metrics := update_performance_metrics st.metrics false t })
  | (Except.ok mon, cst) =>
    let validation := validate_execution hook mon
    if validation.valid then
      ({ success := true, result := some mon,
         report := some (generate_task_report task mon validation),
         error := none, error_report := none, execution_time := t },
       { cap_state := cst, metrics := update_performance_metrics st.metrics true t })
    else
      let e := "Validation failed: " ++ pyReprStrList validation.errors
      ({ success := false, result := none, report := none,
         error := some e, error_report := some (handle_task_failure task e),
         execution_time := t },
       { cap_state := cst, metrics := update_performance_metrics st.metrics false t })

/-- A sequence of `process_task` calls on one agent, each with its task
input and elapsed time. -/
def run_tasks {σ π ρ : Type} (cap : Capability σ π ρ)
    (hook : MonResult ρ → AgentValidation) (name : String) :
    List (PTaskIn π × ℚ) → AgentState σ → AgentState σ
  | [], st => st
  | (task, t) :: rest, st =>
    run_tasks cap hook name rest (process_task cap hook name task t st).2

end BA

namespace Orch

/-- `DeploymentPhase` enum (src/agents/orchestrator.py). -/
inductive DeploymentPhaseE where
  | initialization
  | infrastructure
  | services
  | configuration
  | validation
  | reporting
  | completed
  | failed
deriving DecidableEq

/-- The `.value` string of each `DeploymentPhase` member. -/
def DeploymentPhaseE.value : DeploymentPhaseE → String
  | .initialization => "initialization"
  | .infrastructure => "infrastructure"
  | .services => "services"
  | .configuration => "configuration"
  | .validation => "validation"
  | .reporting => "reporting"
  | .completed => "completed"
  | .failed => "failed"

/-- `OrchestrationStrategy` enum. -/
inductive OrchestrationStrategyE where
  | sequential
  | parallel
  | hybrid
  | adaptive
deriving DecidableEq

/-- `TaskPriority` enum from src/agents/base_agent.py, as used by the
orchestrator's planned tasks. -/
inductive TaskPriorityE where
  | critical
  | high
  | medium
  | low
deriving DecidableEq

/-- Python values appearing in planned task parameter dicts. -/
inductive PyVal where
  | str (s : String)
  | natv (n : Nat)
  | boolv (b : Bool)
  | listv (l : List PyVal)
  | dictv (l : List (String × PyVal))
  | none

/-- An optional string request field as a parameter value (`None` when the
request did not carry the field). -/
def pyStr : Option String → PyVal
  | Option.none => PyVal.none
  | Option.some s => PyVal.str s

/-- Deployment request consumed by `deploy_infrastructure`; every field the
orchestrator reads. Absent dict keys are `none`. -/
structure Request where
  domain : Option String := none
  email : Option String := none
  project_name : Option String := none
  client_name : Option String := none
  server_ip : Option String := none
  ssh_credentials : Option (List (String × PyVal)) := none
  cloudflare_token : Option String := none
  services : Option (List String) := none
  configuration : Option (List (String × PyVal)) := none
  deployment_id : Option String := none

/-- The request rendered back into a parameter value (used by the planned
reporting task, whose `client_data` parameter is the raw request dict);
absent fields produce no key. -/
def requestToPyVal (r : Request) : PyVal :=
  PyVal.dictv
    ((match r.domain with | Option.none => [] | Option.some v => [("domain", PyVal.str v)]) ++
     (match r.email with | Option.none => [] | Option.some v => [("email", PyVal.str v)]) ++
     (match r.project_name with | Option.none => [] | Option.some v => [("project_name", PyVal.str v)]) ++
     (match r.client_name with | Option.none => [] | Option.some v => [("client_name", PyVal.str v)]) ++
     (match r.server_ip with | Option.none => [] | Option.some v => [("server_ip", PyVal.str v)]) ++
     (match r.ssh_credentials with | Option.none => [] | Option.some v => [("ssh_credentials", PyVal.dictv v)]) ++
     (match r.cloudflare_token with | Option.none => [] | Option.some v => [("cloudflare_token", PyVal.str v)]) ++
     (match r.services with | Option.none => [] | Option.some v => [("services", PyVal.listv (v.map PyVal.str))]) ++
     (match r.configuration with | Option.none => [] | Option.some v => [("configuration", PyVal.dictv v)]))

/-- Client data assembled by `DevOpsOrchestrator.process_client_data`. -/
structure ClientData where
  domain : Option String
  email : Option String
  project_name : Option String
  client_name : Option String
  server_ip : Option String
  ssh_credentials : List (String × PyVal)
  cloudflare_token : Option String
  services : List String
  configuration : List (String × PyVal)

/-- Python truthiness of an optional string field (`None` and the empty
string are falsy). -/
def truthyOpt : Option String → Bool
  | Option.none => false
  | Option.some s => !(s = "")

/-- Field access on the assembled client data by required-field name. -/
def clientField (cd : ClientData) : String → Option String
  | "domain" => cd.domain
  | "email" => cd.email
  | "project_name" => cd.project_name
  | "server_ip" => cd.server_ip
  | _ => Option.none

/-- `DevOpsOrchestrator.process_client_data`: assemble client data with
defaults and raise when a required field (`domain`, `email`,
`project_name`, `server_ip`) is missing or falsy. -/
def process_client_data (request : Request) : Except String ClientData :=
  let client_data : ClientData :=
    { domain := request.domain,
      email := request.email,
      project_name := request.project_name,
      client_name := request.client_name,
      server_ip := request.server_ip,
      ssh_credentials := request.ssh_credentials.getD [],
      cloudflare_token := request.cloudflare_token,
      services := request.services.getD ["n8n", "supabase"],
      configuration := request.configuration.getD [] }
  let required_fields := ["domain", "email", "project_name", "server_ip"]
  let missing_fields := required_fields.filter
    (fun field => !(truthyOpt (clientField client_data field)))
  if missing_fields = [] then Except.ok client_data
  else Except.error ("Missing required fields: " ++ pyReprStrList missing_fields)

/-- A planned orchestrator task (one entry of a phase's `tasks` list). -/
structure OTask where
  id : String
  agent : String
  description : String
  priority : TaskPriorityE
  estimated_duration : Nat
  parameters : List (String × PyVal)
  dependencies : List String := []

/-- A planned phase. -/
structure OPhase where
  phase : DeploymentPhaseE
  description : String
  tasks : List OTask
  parallel_execution : Bool

/-- `plan_infrastructure_phase`. -/
def plan_infrastructure_phase (request : Request) : OPhase :=
  { phase := DeploymentPhaseE.infrastructure,
    description := "Setup base server infrastructure",
    tasks := [
      { id := "base_server_setup",
        agent := "server_setup_agent",
        description := "Setup Docker, Portainer, and Nginx Proxy Manager",
        priority := TaskPriorityE.critical,
        estimated_duration := 300,
        parameters := [
          ("server_ip", pyStr request.server_ip),
          ("ssh_credentials", match request.ssh_credentials with
            | Option.none => PyVal.none
            | Option.some d => PyVal.dictv d),
          ("install_docker", PyVal.boolv true),
          ("install_portainer", PyVal.boolv true),
          ("install_nginx_proxy", PyVal.boolv true)] }],
    parallel_execution := false }

/-- `plan_services_phase`: 0–2 tasks gated by the service names present in
the raw request's `services` list (absent list defaults to empty here). -/
def plan_services_phase (request : Request) : OPhase :=
  let tasks :=
    (if "n8n" ∈ request.services.getD [] then
      [{ id := "n8n_deployment",
         agent := "n8n_agent",
         description := "Deploy N8N workflow automation platform",
         priority := TaskPriorityE.high,
         estimated_duration := 600,
         parameters := [
           ("domain", pyStr request.domain),
           ("email", pyStr request.email),
           ("database_type", PyVal.str "postgres"),
           ("async_execution", PyVal.boolv true)] : OTask }]
     else []) ++
    (if "supabase" ∈ request.services.getD [] then
      [{ id := "supabase_deployment",
         agent := "supabase_agent",
         description := "Deploy Supabase backend platform",
         priority := TaskPriorityE.high,
         estimated_duration := 600,
         parameters := [
           ("domain", pyStr request.domain),
           ("email", pyStr request.email),
           ("generate_keys", PyVal.boolv true),
           ("async_execution", PyVal.boolv true)] : OTask }]
     else [])
  { phase := DeploymentPhaseE.services,
    description := "Deploy core services in parallel",
    tasks := tasks,
    parallel_execution := true }

/-- `plan_configuration_phase`: DNS then proxy, the proxy task declaring a
dependency on the DNS task. -/
def plan_configuration_phase (request : Request) : OPhase :=
  { phase := DeploymentPhaseE.configuration,
    description := "Configure DNS and proxy settings",
    tasks := [
      { id := "dns_configuration",
        agent := "dns_agent",
        description := "Create DNS records and subdomains",
        priority := TaskPriorityE.high,
        estimated_duration := 180,
        parameters := [
          ("domain", pyStr request.domain),
          ("server_ip", pyStr request.server_ip),
          ("cloudflare_token", pyStr request.cloudflare_token),
          ("services", PyVal.listv ((request.services.getD []).map PyVal.str))] },
      { id := "proxy_configuration",
        agent := "proxy_agent",
        description := "Configure Nginx proxy hosts and SSL",
        priority := TaskPriorityE.high,
        estimated_duration := 240,
        parameters := [
          ("domain", pyStr request.domain),
          ("services", PyVal.listv ((request.services.getD []).map PyVal.str)),
          ("ssl_enabled", PyVal.boolv true)],
        dependencies := ["dns_configuration"] }],
    parallel_execution := false }

/-- `plan_validation_phase`. -/
def plan_validation_phase (request : Request) : OPhase :=
  { phase := DeploymentPhaseE.validation,
    description := "Validate all services and configurations",
    tasks := [
      { id := "system_validation",
        agent := "validator_agent",
        description := "Comprehensive system validation",
        priority := TaskPriorityE.critical,
        estimated_duration := 300,
        parameters := [
          ("services", PyVal.listv ((request.services.getD []).map PyVal.str)),
          ("domain", pyStr request.domain),
          ("validate_ssl", PyVal.boolv true),
          ("validate_dns", PyVal.boolv true),
          ("validate_services", PyVal.boolv true)] }],
    parallel_execution := false }

/-- `plan_reporting_phase`. -/
def plan_reporting_phase (request : Request) : OPhase :=
  { phase := DeploymentPhaseE.reporting,
    description := "Generate comprehensive deployment report",
    tasks := [
      { id := "final_report",
        agent := "reporter_agent",
        description := "Create final client report",
        priority := TaskPriorityE.medium,
        estimated_duration := 120,
        parameters := [
          ("client_data", requestToPyVal request),
          ("include_credentials", PyVal.boolv true),
          ("include_maintenance_guide", PyVal.boolv true),
          ("format", PyVal.str "markdown")] }],
    parallel_execution := false }

/-- `determine_optimal_strategy`: coarse request-complexity heuristic. -/
def determine_optimal_strategy (request : Request) : OrchestrationStrategyE :=
  let service_count := (request.services.getD []).length
  let complexity_score := service_count + (request.configuration.getD []).length
  if 10 < complexity_score then OrchestrationStrategyE.adaptive
  else if 5 < complexity_score then OrchestrationStrategyE.hybrid
  else OrchestrationStrategyE.parallel

/-- `calculate_task_dependencies`: every planned task's id mapped to its
declared dependency list. -/
def calculate_task_dependencies (phases : List OPhase) : List (String × List String) :=
  phases.foldl (fun acc phase =>
    phase.tasks.foldl (fun acc task => pyInsert acc task.id task.dependencies) acc) []

/-- `identify_parallel_groups`: the id lists of the parallel phases. -/
def identify_parallel_groups (phases : List OPhase) : List (List String) :=
  (phases.filter (fun phase => phase.parallel_execution)).map
    (fun phase => phase.tasks.map (fun task => task.id))

/-- Duration of one phase inside `estimate_total_duration`: parallel phases
take `max(...)` over their tasks, which raises
`ValueError: max() arg is an empty sequence` on an empty task list;
sequential phases sum their tasks' durations. -/
def phaseDuration (phase : OPhase) : Except String Nat :=
  if phase.parallel_execution then
    match phase.tasks with
    | [] => Except.error "max() arg is an empty sequence"
    | t :: ts => Except.ok (ts.foldl (fun a task => max a task.estimated_duration)
                                     t.estimated_duration)
  else
    Except.ok (phase.tasks.foldl (fun a task => a + task.estimated_duration) 0)

/-- `estimate_total_duration` over the plan's phases. -/
def estimate_total_duration : List OPhase → Except String Nat
  | [] => Except.ok 0
  | phase :: rest =>
    match phaseDuration phase with
    | Except.error e => Except.error e
    | Except.ok d =>
      match estimate_total_duration rest with
      | Except.error e => Except.error e
      | Except.ok rest_d => Except.ok (d + rest_d)

/-- The master execution plan. -/
structure Plan where
  strategy : OrchestrationStrategyE
  phases : List OPhase
  dependencies : List (String × List String)
  parallel_groups : List (List String)
  estimated_duration : Nat

/-- `create_master_execution_plan`: the five phases in fixed order, then
the derived dependency map, parallel groups and duration estimate (whose
`ValueError` on an empty parallel phase propagates out). -/
def create_master_execution_plan (request : Request) : Except String Plan :=
  let phases := [
    plan_infrastructure_phase request,
    plan_services_phase request,
    plan_configuration_phase request,
    plan_validation_phase request,
    plan_reporting_phase request]
  match estimate_total_duration phases with
  | Except.error e => Except.error e
  | Except.ok d =>
    Except.ok
      { strategy := determine_optimal_strategy request,
        phases := phases,
        dependencies := calculate_task_dependencies phases,
        parallel_groups := identify_parallel_groups phases,
        estimated_duration := d }

end Orch

namespace Orch

/-- The result dict an agent's `process_task` hands back to the
orchestrator: the orchestrator only ever reads `success` and `error`;
`payload` stands for the remaining fields (`result`, `report`, ...) so
that distinct agent results stay distinct. -/
structure TaskR where
  success : Bool
  error : Option String := none
  payload : Option String := none
deriving DecidableEq

/-- A registered agent as seen by the orchestrator: its id, display name,
optional `agent_type` attribute, and its `process_task` behaviour
(`Except.error` models an exception escaping `process_task`). -/
structure OAgent where
  agent_id : String
  name : String
  agent_type : Option String
  behavior : OTask → Except String TaskR

/-- The alias table of `find_agent_by_type`. -/
def type_mapping (agent_type : String) : String :=
  match agent_type with
  | "server_setup_agent" => "server_setup"
  | "n8n_agent" => "n8n_deployment"
  | "supabase_agent" => "supabase_deployment"
  | "dns_agent" => "dns_manager"
  | "proxy_agent" => "proxy_configurator"
  | "validator_agent" => "system_validator"
  | "reporter_agent" => "final_reporter"
  | other => other

/-- `DevOpsOrchestrator.find_agent_by_type`: map the logical agent name
through the alias table, then scan the registry in insertion order for an
exact `agent_type` match or a substring match against the lower-cased
display name. -/
def find_agent_by_type (agents : List OAgent) (agent_type : String) : Option String :=
  let target := type_mapping agent_type
  (agents.find? (fun ag =>
    decide (ag.agent_type = some target) || containsSub (pyLower ag.name) target)).map
    (fun ag => ag.agent_id)

/-- `DevOpsOrchestrator.execute_agent_task`: look the agent up by id and
run its `process_task`; an exception from the agent propagates. -/
def execute_agent_task (agents : List OAgent) (agent_id : String) (task : OTask) :
    Except String TaskR :=
  match agents.find? (fun ag => decide (ag.agent_id = agent_id)) with
  | Option.none => Except.error ("Agent " ++ agent_id ++ " not found")
  | Option.some ag => ag.behavior task

/-- `DevOpsOrchestrator.check_task_dependencies`: every declared dependency
must be present among the phase's collected results with `success` true. -/
def check_task_dependencies (task : OTask) (completed_tasks : List (String × TaskR)) : Bool :=
  task.dependencies.all (fun dep =>
    match pyLookup completed_tasks dep with
    | Option.none => false
    | Option.some r => r.success)

/-- How `asyncio.gather(..., return_exceptions=True)` records one task's
outcome: an exception becomes a `{success: False, error}` dict. -/
def gatherConvert : Except String TaskR → TaskR
  | Except.ok r => r
  | Except.error e => { success := false, error := some e, payload := none }

/-- Result dict of one executed phase. -/
structure PhaseResult where
  phase : String
  parallel_execution : Bool
  task_results : List (String × TaskR)
  success : Bool
deriving DecidableEq

/-- `DevOpsOrchestrator.execute_parallel_phase`: a coroutine is created
only for tasks whose agent resolves (unresolvable tasks are skipped
silently); the gathered outcomes are then keyed by `tasks[i]['id']` —
index `i` counts the gathered outcomes, so after a skip the ids
misalign with the outcomes, exactly as in the source.  The second
component is the dispatch trace: the ids of the tasks actually handed to
an agent. -/
def execute_parallel_phase (agents : List OAgent) (phase_config : OPhase) :
    PhaseResult × List String :=
  let dispatched := phase_config.tasks.filterMap (fun task =>
    (find_agent_by_type agents task.agent).map (fun aid => (aid, task)))
  let task_results := dispatched.map (fun p => gatherConvert (execute_agent_task agents p.1 p.2))
  let results := (phase_config.tasks.zip task_results).foldl
    (fun acc p => pyInsert acc p.1.id p.2) []
  ({ phase := phase_config.phase.value,
     parallel_execution := true,
     task_results := results,
     success := results.all (fun kv => kv.2.success) },
   dispatched.map (fun p => p.2.id))

/-- The task loop of `DevOpsOrchestrator.execute_sequential_phase`:
dependency check, agent resolution, execution (an agent exception
propagates), then fail-fast on a non-success result.  The second
component is the dispatch trace. -/
def seqLoop (agents : List OAgent) :
    List OTask → List (String × TaskR) → List String →
    Except String (List (String × TaskR)) × List String
  | [], acc, tr => (Except.ok acc, tr)
  | task :: rest, acc, tr =>
    if check_task_dependencies task acc then
      match find_agent_by_type agents task.agent with
      | Option.none => (Except.error ("No agent found for type " ++ task.agent), tr)
      | Option.some aid =>
        match execute_agent_task agents aid task with
        | Except.error e => (Except.error e, tr ++ [task.id])
        | Except.ok r =>
          if r.success then
            seqLoop agents rest (pyInsert acc task.id r) (tr ++ [task.id])
          else
            (Except.error ("Task " ++ task.id ++ " failed: " ++ (r.error.getD "Unknown error")),
             tr ++ [task.id])
    else
      (Except.error ("Dependencies not met for task " ++ task.id), tr)

/-- `DevOpsOrchestrator.execute_sequential_phase` (its returned phase dict
hard-codes `success: True`, reachable only when every task succeeded). -/
def execute_sequential_phase (agents : List OAgent) (phase_config : OPhase) :
    Except String PhaseResult × List String :=
  let out := seqLoop agents phase_config.tasks [] []
  (out.1.map (fun acc =>
    { phase := phase_config.phase.value,
      parallel_execution := false,
      task_results := acc,
      success := true }), out.2)

/-- Outcome of `execute_deployment_phases`: the raised error if any, the
per-phase results collected so far, the orchestrator's `current_phase`
after the run, and the cumulative dispatch trace. -/
structure PhasesOutcome where
  error : Option String
  results : List (String × PhaseResult)
  current : DeploymentPhaseE
  trace : List String
deriving DecidableEq

/-- The phase loop of `DevOpsOrchestrator.execute_deployment_phases`:
set `current_phase`, run the phase (parallel phases cannot raise — their
failures are aggregated into the returned `success` flag; sequential
phases raise on any task failure), record the result, and continue.  A
raised error is wrapped as `Deployment failed in phase ...` and stops the
loop. -/
def runPhases (agents : List OAgent) :
    List OPhase → List (String × PhaseResult) → DeploymentPhaseE → List String →
    PhasesOutcome
  | [], acc, cur, tr => { error := none, results := acc, current := cur, trace := tr }
  | phase_config :: rest, acc, _, tr =>
    if phase_config.parallel_execution then
      let out := execute_parallel_phase agents phase_config
      runPhases agents rest (pyInsert acc phase_config.phase.value out.1)
        phase_config.phase (tr ++ out.2)
    else
      match execute_sequential_phase agents phase_config with
      | (Except.ok pr, tr2) =>
        runPhases agents rest (pyInsert acc phase_config.phase.value pr)
          phase_config.phase (tr ++ tr2)
      | (Except.error e, tr2) =>
        { error := some ("Deployment failed in phase " ++ phase_config.phase.value ++ ": " ++ e),
          results := acc,
          current := phase_config.phase,
          trace := tr ++ tr2 }

/-- `execute_deployment_phases` for one deployment on a fresh orchestrator
(`current_phase` starts at INITIALIZATION). -/
def execute_deployment_phases (agents : List OAgent) (plan : Plan) : PhasesOutcome :=
  runPhases agents plan.phases [] DeploymentPhaseE.initialization []

/-- The final report's execution summary, from `generate_final_report`
(timestamps are environmental; `success` is the conjunction of all phase
results' `success` flags). -/
structure FinalReport where
  phases_completed : Nat
  success : Bool
deriving DecidableEq

/-- `generate_final_report`, restricted to its execution summary. -/
def generate_final_report (results : List (String × PhaseResult)) : FinalReport :=
  { phases_completed := results.length,
    success := results.all (fun kv => kv.2.success) }

/-- `generate_recovery_suggestions`. -/
def generate_recovery_suggestions (_ : String) : List String :=
  ["Review error logs for specific failure points",
   "Verify server connectivity and credentials",
   "Check service dependencies and prerequisites",
   "Retry deployment with corrected parameters",
   "Contact support with deployment ID and error details"]

/-- `generate_rollback_plan`. -/
def generate_rollback_plan : List String :=
  ["Stop all running Docker containers",
   "Remove created DNS records",
   "Clean up temporary files and configurations",
   "Restore server to pre-deployment state",
   "Document lessons learned for future deployments"]

/-- Error report of `handle_deployment_failure`. -/
structure DeployErrorReport where
  error : String
  phase_at_failure : String
  completed_phases : List String
  recovery_suggestions : List String
  rollback_plan : List String
deriving DecidableEq

/-- `DevOpsOrchestrator.handle_deployment_failure`: capture the error, the
phase active at failure time and the completed-phase keys. -/
def handle_deployment_failure (error : String) (current : DeploymentPhaseE)
    (completed : List String) : DeployErrorReport :=
  { error := error,
    phase_at_failure := current.value,
    completed_phases := completed,
    recovery_suggestions := generate_recovery_suggestions error,
    rollback_plan := generate_rollback_plan }

/-- Return value of `deploy_infrastructure`: `{success, execution_time,
result | error, final_report | error_report}` (execution time is
environmental and not modelled). -/
structure DeployResult where
  success : Bool
  result : Option (List (String × PhaseResult))
  final_report : Option FinalReport
  error : Option String
  error_report : Option DeployErrorReport
deriving DecidableEq

/-- `DevOpsOrchestrator.deploy_infrastructure` on a fresh orchestrator:
validate the request, build the master plan, run the phases, and convert
any raised exception into the failure-shaped result (with the failure
report capturing `current_phase` and the completed phases). -/
def deploy_infrastructure (agents : List OAgent) (deployment_request : Request) :
    DeployResult :=
  match process_client_data deployment_request with
  | Except.error e =>
    { success := false, result := none, final_report := none,
      error := some e,
      error_report := some (handle_deployment_failure e DeploymentPhaseE.initialization []) }
  | Except.ok _ =>
    match create_master_execution_plan deployment_request with
    | Except.error e =>
      { success := false, result := none, final_report := none,
        error := some e,
        error_report := some (handle_deployment_failure e DeploymentPhaseE.initialization []) }
    | Except.ok plan =>
      let out := execute_deployment_phases agents plan
      match out.error with
      | Option.some e =>
        { success := false, result := none, final_report := none,
          error := some e,
          error_report := some (handle_deployment_failure e out.current
            (out.results.map (fun kv => kv.1))) }
      | Option.none =>
        { success := true, result := some out.results,
          final_report := some (generate_final_report out.results),
          error := none, error_report := none }

end Orch

namespace BA

/-- Closed form of `validate_execution`: the `valid` flag records whether
any step succeeded, and the `dict.update` merge hands the hook's lists
through unchanged. -/
theorem validate_execution_eq {ρ : Type} (hook : MonResult ρ → AgentValidation)
    (r : MonResult ρ) :
    validate_execution hook r =
      { valid := if r.steps_successful = 0 then false else true,
        errors := (hook r).errors,
        warnings := (hook r).warnings,
        checks_performed := (hook r).checks_performed } := by
  unfold validate_execution
  split <;> simp_all

end BA

/-- Claim C4, counterexample: for a step-execution result in which no step
succeeded, `validate_execution` with the base `perform_agent_validation`
hook returns an invalid result whose `errors` list is EMPTY — the base
check's descriptive error "No steps were executed successfully" has been
overwritten by the subclass merge (Python `dict.update` replaces the
`errors` key), contradicting the claim that the merged errors list still
contains the base error. -/
theorem c4_counterexample :
    (BA.validate_execution BA.base_perform_agent_validation
      { steps_executed := 0, steps_successful := 0,
        step_results := ([] : List (BA.StepResult Unit)) }).valid = false ∧
    (BA.validate_execution BA.base_perform_agent_validation
      { steps_executed := 0, steps_successful := 0,
        step_results := ([] : List (BA.StepResult Unit)) }).errors = [] := by
  constructor <;> rfl

/-- Claim C4, amended: the validation returned by `validate_execution` is
valid exactly when at least one step succeeded, but the subclass
contribution does NOT augment the base lists — the merge performed with
Python `dict.update` replaces the `errors`, `warnings` and
`checks_performed` lists with the hook's lists wholesale, so when no step
succeeded the result is invalid yet (with the default hook) the base
descriptive error is absent from the merged errors list. -/
theorem c4_amended {ρ : Type} (hook : BA.MonResult ρ → BA.AgentValidation)
    (r : BA.MonResult ρ) :
    ((BA.validate_execution hook r).valid = true ↔ r.steps_successful ≠ 0) ∧
    (BA.validate_execution hook r).errors = (hook r).errors ∧
    (BA.validate_execution hook r).warnings = (hook r).warnings ∧
    (BA.validate_execution hook r).checks_performed = (hook r).checks_performed := by
  rw [BA.validate_execution_eq]
  refine ⟨?_, rfl, rfl, rfl⟩
  split <;> simp_all

/-- Claim C5: for every injected capability behaviour (any state, any
parameters, returning normally or raising), `process_task` returns exactly
one of the success shape `{success: true, result, report, executionTime}`
or the failure shape `{success: false, error, errorReport, executionTime}`
— in particular it is a total function of the modelled state, so no
internal exception escapes its boundary. -/
theorem c5_theorem {σ π ρ : Type} (cap : BA.Capability σ π ρ)
    (hook : BA.MonResult ρ → BA.AgentValidation) (name : String)
    (task : BA.PTaskIn π) (t : ℚ) (st : BA.AgentState σ) :
    ((BA.process_task cap hook name task t st).1.success = true ∧
     (BA.process_task cap hook name task t st).1.result.isSome = true ∧
     (BA.process_task cap hook name task t st).1.report.isSome = true ∧
     (BA.process_task cap hook name task t st).1.error = none ∧
     (BA.process_task cap hook name task t st).1.error_report = none) ∨
    ((BA.process_task cap hook name task t st).1.success = false ∧
     (BA.process_task cap hook name task t st).1.error.isSome = true ∧
     (BA.process_task cap hook name task t st).1.error_report.isSome = true ∧
     (BA.process_task cap hook name task t st).1.result = none ∧
     (BA.process_task cap hook name task t st).1.report = none) := by
  rcases hm : BA.execute_with_monitoring cap (BA.generate_execution_steps name task)
      st.cap_state with ⟨res, cst⟩
  cases res with
  | error e =>
    right
    simp [BA.process_task, hm]
  | ok mon =>
    by_cases hv : (BA.validate_execution hook mon).valid = true
    · left
      simp [BA.process_task, hm, hv]
    · right
      simp [BA.process_task, hm, hv]

namespace BA

/-- If a step's first call raises and the retry also raises, the step loop
stops with the wrapping error (carrying the FIRST error's text), whatever
steps remain. -/
theorem monLoop_cons_fail_fail {σ π ρ : Type} (cap : Capability σ π ρ)
    (s : Step π) (rest : List (Step π)) (st0 : σ) (e3 e4 : String)
    (hfun : s.function = "execute_primary_function")
    (ha : (cap st0 s.parameters).1 = Except.error e3)
    (hb : (cap (cap st0 s.parameters).2 s.parameters).1 = Except.error e4) :
    monLoop cap (s :: rest) st0 =
      (Except.error ("Step " ++ toString s.step_id ++
                     " failed and could not be recovered: " ++ e3),
       (cap (cap st0 s.parameters).2 s.parameters).2) := by
  have hsc1 : stepCall cap st0 s = (Except.error e3, (cap st0 s.parameters).2) := by
    simp [stepCall, hfun]
    rw [← ha]
  have hsc2 : stepCall cap (cap st0 s.parameters).2 s =
      (Except.error e4, (cap (cap st0 s.parameters).2 s.parameters).2) := by
    simp [stepCall, hfun]
    rw [← hb]
  simp [monLoop, hsc1, attempt_step_recovery, hsc2]

/-- If a step's first call raises and the retry returns, the step loop
records a `recovered` entry and continues with the remaining steps. -/
theorem monLoop_cons_fail_ok {σ π ρ : Type} (cap : Capability σ π ρ)
    (s : Step π) (rest : List (Step π)) (st0 : σ) (e3 : String) (r : ρ)
    (hfun : s.function = "execute_primary_function")
    (ha : (cap st0 s.parameters).1 = Except.error e3)
    (hb : (cap (cap st0 s.parameters).2 s.parameters).1 = Except.ok r) :
    monLoop cap (s :: rest) st0 =
      ((monLoop cap rest (cap (cap st0 s.parameters).2 s.parameters).2).1.map
         (fun l => { step_id := s.step_id, success := true, result := some r,
                     error := none, recovered := true } :: l),
       (monLoop cap rest (cap (cap st0 s.parameters).2 s.parameters).2).2) := by
  have hsc1 : stepCall cap st0 s = (Except.error e3, (cap st0 s.parameters).2) := by
    simp [stepCall, hfun]
    rw [← ha]
  have hsc2 : stepCall cap (cap st0 s.parameters).2 s =
      (Except.ok r, (cap (cap st0 s.parameters).2 s.parameters).2) := by
    simp [stepCall, hfun]
    rw [← hb]
  simp [monLoop, hsc1, attempt_step_recovery, hsc2]

end BA

/-- Claim C8: when the single generated step's first execution raises,
exactly one recovery (one retry of the same step) is attempted; if the
retry succeeds the final step-results list carries the step marked
`recovered: true` and the task ends with overall `success: true`; if the
retry also fails the whole task aborts with an error identifying the
failing step, and — stated for an arbitrary step list — no further step
executes (the loop's outcome and final capability state do not depend on
the remaining steps). -/
theorem c8_theorem {σ π ρ : Type} (cap : BA.Capability σ π ρ)
    (hook : BA.MonResult ρ → BA.AgentValidation) (name : String)
    (task : BA.PTaskIn π) (t : ℚ) (st : BA.AgentState σ) (e : String)
    (h1 : (cap st.cap_state task.parameters).1 = Except.error e) :
    (∀ r : ρ, (cap (cap st.cap_state task.parameters).2 task.parameters).1 = Except.ok r →
       (BA.process_task cap hook name task t st).1.success = true ∧
       (BA.process_task cap hook name task t st).1.result =
         some { steps_executed := 1, steps_successful := 1,
                step_results := [{ step_id := 1, success := true, result := some r,
                                   error := none, recovered := true }] }) ∧
    (∀ e2 : String,
       (cap (cap st.cap_state task.parameters).2 task.parameters).1 = Except.error e2 →
       (BA.process_task cap hook name task t st).1.success = false ∧
       (BA.process_task cap hook name task t st).1.error =
         some ("Step 1 failed and could not be recovered: " ++ e)) ∧
    (∀ (s : BA.Step π) (rest : List (BA.Step π)) (st0 : σ) (e3 e4 : String),
       s.function = "execute_primary_function" →
       (cap st0 s.parameters).1 = Except.error e3 →
       (cap (cap st0 s.parameters).2 s.parameters).1 = Except.error e4 →
       BA.execute_with_monitoring cap (s :: rest) st0 =
         (Except.error ("Step " ++ toString s.step_id ++
                        " failed and could not be recovered: " ++ e3),
          (cap (cap st0 s.parameters).2 s.parameters).2)) := by
  refine ⟨?_, ?_, ?_⟩
  · intro r hr
    have hml := BA.monLoop_cons_fail_ok cap
      { step_id := 1, description := "Execute " ++ name ++ " primary function",
        function := "execute_primary_function", parameters := task.parameters,
        timeout := 300 } [] st.cap_state e r rfl h1 hr
    have hm : BA.execute_with_monitoring cap (BA.generate_execution_steps name task)
        st.cap_state =
        (Except.ok { steps_executed := 1, steps_successful := 1,
                     step_results := [{ step_id := 1, success := true, result := some r,
                                        error := none, recovered := true }] },
         (cap (cap st.cap_state task.parameters).2 task.parameters).2) := by
      simp only [BA.execute_with_monitoring, BA.generate_execution_steps]
      rw [hml]
      simp [BA.monLoop, Except.map]
    simp [BA.process_task, hm, BA.validate_execution_eq]
  · intro e2 hr
    have hml := BA.monLoop_cons_fail_fail cap
      { step_id := 1, description := "Execute " ++ name ++ " primary function",
        function := "execute_primary_function", parameters := task.parameters,
        timeout := 300 } [] st.cap_state e e2 rfl h1 hr
    have hm : BA.execute_with_monitoring cap (BA.generate_execution_steps name task)
        st.cap_state =
        (Except.error ("Step 1 failed and could not be recovered: " ++ e),
         (cap (cap st.cap_state task.parameters).2 task.parameters).2) := by
      simp only [BA.execute_with_monitoring, BA.generate_execution_steps]
      rw [hml]
      have hstr : (("Step " ++ toString (1 : Nat)) ++ " failed and could not be recovered: ")
          = "Step 1 failed and could not be recovered: " := rfl
      simp [Except.map, hstr]
    simp [BA.process_task, hm]
  · intro s rest st0 e3 e4 hfun ha hb
    have hml := BA.monLoop_cons_fail_fail cap s rest st0 e3 e4 hfun ha hb
    simp only [BA.execute_with_monitoring]
    rw [hml]
    simp [Except.map]

/-- Concrete capability for exercising the retry semantics: fails on its
first call, then returns the current counter. -/
def c8cap : BA.Capability Nat Unit Nat :=
  fun n _ => (if n = 0 then Except.error "boom" else Except.ok n, n + 1)

/-- Concrete task input for the retry scenarios. -/
def c8task : BA.PTaskIn Unit :=
  { id := some "t1", description := none, parameters := () }

/-- Claim C8, witness: the retry theorem applied to a concrete capability
that fails once then succeeds — the task's first call raises and the
processed task reports overall success with the single step recovered. -/
theorem c8_witness :
    ((c8cap (0 : Nat) ()).1 = Except.error "boom") ∧
    (BA.process_task c8cap BA.base_perform_agent_validation "N8N Agent" c8task 1
      { cap_state := 0, metrics := BA.initial_metrics }).1.success = true ∧
    (BA.process_task c8cap BA.base_perform_agent_validation "N8N Agent" c8task 1
      { cap_state := 0, metrics := BA.initial_metrics }).1.result =
      some { steps_executed := 1, steps_successful := 1,
             step_results := [{ step_id := 1, success := true, result := some 1,
                                error := none, recovered := true }] } := by
  have h := c8_theorem c8cap BA.base_perform_agent_validation "N8N Agent" c8task 1
    { cap_state := 0, metrics := BA.initial_metrics } "boom" rfl
  exact ⟨rfl, (h.1 1 rfl).1, (h.1 1 rfl).2⟩

namespace BA

/-- One metrics update: the counters gain exactly one task, the elapsed
time is added, and the derived average/rate equal the recomputed cumulative
ratios (the positivity guard always fires after an increment). -/
theorem update_pm_spec (m : PerformanceMetrics) (b : Bool) (t : ℚ) :
    ((update_performance_metrics m b t).tasks_completed +
      (update_performance_metrics m b t).tasks_failed
      = m.tasks_completed + m.tasks_failed + 1) ∧
    ((update_performance_metrics m b t).total_execution_time
      = m.total_execution_time + t) ∧
    ((update_performance_metrics m b t).average_task_time
      = (update_performance_metrics m b t).total_execution_time /
        (((update_performance_metrics m b t).tasks_completed +
          (update_performance_metrics m b t).tasks_failed : ℕ) : ℚ)) ∧
    ((update_performance_metrics m b t).success_rate
      = (((update_performance_metrics m b t).tasks_completed : ℕ) : ℚ) /
        (((update_performance_metrics m b t).tasks_completed +
          (update_performance_metrics m b t).tasks_failed : ℕ) : ℚ)) := by
  cases b with
  | false =>
    have h : 0 < m.tasks_completed + (m.tasks_failed + 1) := by omega
    simp only [update_performance_metrics, Bool.false_eq_true, if_false]
    simp [h]
    omega
  | true =>
    have h : 0 < m.tasks_completed + 1 + m.tasks_failed := by omega
    simp only [update_performance_metrics, if_true]
    simp [h]
    omega

/-- Every `process_task` call performs exactly one metrics update with the
call's elapsed time. -/
theorem process_task_metrics {σ π ρ : Type} (cap : Capability σ π ρ)
    (hook : MonResult ρ → AgentValidation) (name : String)
    (task : PTaskIn π) (t : ℚ) (st : AgentState σ) :
    ∃ b : Bool, (process_task cap hook name task t st).2.metrics
      = update_performance_metrics st.metrics b t := by
  rcases hm : execute_with_monitoring cap (generate_execution_steps name task)
      st.cap_state with ⟨res, cst⟩
  cases res with
  | error e => exact ⟨false, by simp [process_task, hm]⟩
  | ok mon =>
    by_cases hv : (validate_execution hook mon).valid = true
    · exact ⟨true, by simp [process_task, hm, hv]⟩
    · exact ⟨false, by simp [process_task, hm, hv]⟩

/-- Invariant of a run of `process_task` calls: counters advance by the
number of calls, total time by the sum of elapsed times, and (once at
least one call happened) average and success rate equal the cumulative
ratios. -/
theorem run_tasks_metrics {σ π ρ : Type} (cap : Capability σ π ρ)
    (hook : MonResult ρ → AgentValidation) (name : String) :
    ∀ (inputs : List (PTaskIn π × ℚ)) (st : AgentState σ),
      ((run_tasks cap hook name inputs st).metrics.tasks_completed +
        (run_tasks cap hook name inputs st).metrics.tasks_failed
        = st.metrics.tasks_completed + st.metrics.tasks_failed + inputs.length) ∧
      ((run_tasks cap hook name inputs st).metrics.total_execution_time
        = st.metrics.total_execution_time + (inputs.map (fun p => p.2)).sum) ∧
      (inputs ≠ [] →
        ((run_tasks cap hook name inputs st).metrics.average_task_time
          = (run_tasks cap hook name inputs st).metrics.total_execution_time /
            (((run_tasks cap hook name inputs st).metrics.tasks_completed +
              (run_tasks cap hook name inputs st).metrics.tasks_failed : ℕ) : ℚ)) ∧
        ((run_tasks cap hook name inputs st).metrics.success_rate
          = (((run_tasks cap hook name inputs st).metrics.tasks_completed : ℕ) : ℚ) /
            (((run_tasks cap hook name inputs st).metrics.tasks_completed +
              (run_tasks cap hook name inputs st).metrics.tasks_failed : ℕ) : ℚ))) := by
  intro inputs
  induction inputs with
  | nil =>
    intro st
    refine ⟨by simp [run_tasks], by simp [run_tasks], by simp⟩
  | cons p rest ih =>
    intro st
    obtain ⟨task, t⟩ := p
    obtain ⟨b, hb⟩ := process_task_metrics cap hook name task t st
    have hrun : run_tasks cap hook name ((task, t) :: rest) st
        = run_tasks cap hook name rest (process_task cap hook name task t st).2 := rfl
    obtain ⟨ihc, iht, ihp⟩ := ih (process_task cap hook name task t st).2
    obtain ⟨huc, hut, hua, hur⟩ := update_pm_spec st.metrics b t
    refine ⟨?_, ?_, ?_⟩
    · rw [hrun, ihc, hb, huc]
      simp
      omega
    · rw [hrun, iht, hb, hut]
      simp [List.sum_cons]
      ring
    · intro _
      cases rest with
      | nil =>
        rw [hrun]
        simp only [run_tasks]
        rw [hb]
        exact ⟨hua, hur⟩
      | cons q qs =>
        rw [hrun]
        exact ihp (by simp)

end BA

/-- Claim C9: after any nonempty sequence of `process_task` calls on a
fresh agent (any capability behaviour, so any mix of successes and
failures), the performance metrics satisfy
`tasks_completed + tasks_failed = N`, `success_rate = tasks_completed / N`,
`total_execution_time = Σ elapsed times`, and
`average_task_time = total_execution_time / N`; the counters are only ever
advanced, never reset mid-run. -/
theorem c9_theorem {σ π ρ : Type} (cap : BA.Capability σ π ρ)
    (hook : BA.MonResult ρ → BA.AgentValidation) (name : String) (cst : σ)
    (inputs : List (BA.PTaskIn π × ℚ)) (hne : inputs ≠ []) :
    ((BA.run_tasks cap hook name inputs
        { cap_state := cst, metrics := BA.initial_metrics }).metrics.tasks_completed +
      (BA.run_tasks cap hook name inputs
        { cap_state := cst, metrics := BA.initial_metrics }).metrics.tasks_failed
      = inputs.length) ∧
    ((BA.run_tasks cap hook name inputs
        { cap_state := cst, metrics := BA.initial_metrics }).metrics.total_execution_time
      = (inputs.map (fun p => p.2)).sum) ∧
    ((BA.run_tasks cap hook name inputs
        { cap_state := cst, metrics := BA.initial_metrics }).metrics.success_rate
      = ((BA.run_tasks cap hook name inputs
          { cap_state := cst, metrics := BA.initial_metrics }).metrics.tasks_completed : ℚ) /
        (inputs.length : ℚ)) ∧
    ((BA.run_tasks cap hook name inputs
        { cap_state := cst, metrics := BA.initial_metrics }).metrics.average_task_time
      = (BA.run_tasks cap hook name inputs
          { cap_state := cst, metrics := BA.initial_metrics }).metrics.total_execution_time /
        (inputs.length : ℚ)) := by
  obtain ⟨hc, ht, hp⟩ := BA.run_tasks_metrics cap hook name inputs
    { cap_state := cst, metrics := BA.initial_metrics }
  obtain ⟨ha, hr⟩ := hp hne
  have hc0 : (BA.run_tasks cap hook name inputs
      { cap_state := cst, metrics := BA.initial_metrics }).metrics.tasks_completed +
      (BA.run_tasks cap hook name inputs
        { cap_state := cst, metrics := BA.initial_metrics }).metrics.tasks_failed
      = inputs.length := by
    rw [hc]
    simp [BA.initial_metrics]
  have ht0 : (BA.run_tasks cap hook name inputs
      { cap_state := cst, metrics := BA.initial_metrics }).metrics.total_execution_time
      = (inputs.map (fun p => p.2)).sum := by
    rw [ht]
    simp [BA.initial_metrics]
  refine ⟨hc0, ht0, ?_, ?_⟩
  · rw [hr, hc0]
  · rw [ha, hc0]

/-- Concrete task input for the metrics scenario. -/
def c9task : BA.PTaskIn Unit :=
  { id := some "m1", description := none, parameters := () }

/-- Concrete capability for the metrics scenario: its first two calls fail
(so the first task fails even after its retry) and later calls succeed. -/
def c9cap : BA.Capability Nat Unit Nat :=
  fun n _ => (if n < 2 then Except.error "flaky" else Except.ok n, n + 1)

/-- Claim C9, witness: two concrete `process_task` calls — the first task
fails (both step attempts raise), the second succeeds — give
`tasks_completed + tasks_failed = 2`, total time `5` and success rate
`tasks_completed / 2`. -/
theorem c9_witness :
    ([(c9task, (2 : ℚ)), (c9task, 3)] ≠ []) ∧
    ((BA.run_tasks c9cap BA.base_perform_agent_validation "A"
        [(c9task, (2 : ℚ)), (c9task, 3)]
        { cap_state := 0, metrics := BA.initial_metrics }).metrics.tasks_completed +
      (BA.run_tasks c9cap BA.base_perform_agent_validation "A"
        [(c9task, (2 : ℚ)), (c9task, 3)]
        { cap_state := 0, metrics := BA.initial_metrics }).metrics.tasks_failed
      = 2) ∧
    ((BA.run_tasks c9cap BA.base_perform_agent_validation "A"
        [(c9task, (2 : ℚ)), (c9task, 3)]
        { cap_state := 0, metrics := BA.initial_metrics }).metrics.total_execution_time
      = 5) ∧
    ((BA.run_tasks c9cap BA.base_perform_agent_validation "A"
        [(c9task, (2 : ℚ)), (c9task, 3)]
        { cap_state := 0, metrics := BA.initial_metrics }).metrics.success_rate
      = ((BA.run_tasks c9cap BA.base_perform_agent_validation "A"
          [(c9task, (2 : ℚ)), (c9task, 3)]
          { cap_state := 0, metrics := BA.initial_metrics }).metrics.tasks_completed : ℚ) / 2) := by
  have h := c9_theorem c9cap BA.base_perform_agent_validation "A" 0
    [(c9task, (2 : ℚ)), (c9task, 3)] (by simp)
  refine ⟨by simp, ?_, ?_, ?_⟩
  · rw [h.1]
    rfl
  · rw [h.2.1]
    norm_num
  · have := h.2.2.1
    simpa using this

/-- Claim C10: for every deployment request whose services list is empty or
absent, the Services phase is planned with zero tasks, so
`estimate_total_duration` hits `max()` over an empty sequence and the plan
construction raises `ValueError` instead of returning a plan; consequently
`deploy_infrastructure` returns a failure result for any agent registry. -/
theorem c10_theorem (request : Orch.Request) (agents : List Orch.OAgent)
    (hserv : request.services = none ∨ request.services = some []) :
    Orch.create_master_execution_plan request
      = Except.error "max() arg is an empty sequence" ∧
    (Orch.deploy_infrastructure agents request).success = false := by
  have hplan : Orch.create_master_execution_plan request
      = Except.error "max() arg is an empty sequence" := by
    rcases hserv with h | h <;>
      simp [Orch.create_master_execution_plan, Orch.estimate_total_duration,
            Orch.phaseDuration, Orch.plan_infrastructure_phase, Orch.plan_services_phase, h]
  refine ⟨hplan, ?_⟩
  rcases hpc : Orch.process_client_data request with e | cd
  · simp [Orch.deploy_infrastructure, hpc]
  · simp [Orch.deploy_infrastructure, hpc, hplan]

/-- Concrete request with all required fields but an empty services list. -/
def c10request : Orch.Request :=
  { domain := some "example.com", email := some "a@example.com",
    project_name := some "example-project", server_ip := some "10.0.0.5",
    services := some [] }

/-- Claim C10, witness: the empty-services theorem applied at a concrete
valid request and the empty registry. -/
theorem c10_witness :
    (c10request.services = none ∨ c10request.services = some []) ∧
    Orch.create_master_execution_plan c10request
      = Except.error "max() arg is an empty sequence" ∧
    (Orch.deploy_infrastructure [] c10request).success = false := by
  have h := c10_theorem c10request [] (Or.inr rfl)
  exact ⟨Or.inr rfl, h.1, h.2⟩

/-- Claim C6: in a sequential phase with tasks `[A, B]` where B depends on
A, if A does not come back as a successful result (its agent is missing,
its execution raises, or its recorded result has `success = false`), the
phase aborts with an error and B is never dispatched to any agent (B's id
is absent from the dispatch trace). -/
theorem c6_theorem (agents : List Orch.OAgent) (A B : Orch.OTask) (ph : Orch.OPhase)
    (htasks : ph.tasks = [A, B])
    (_hdeps : B.dependencies = [A.id])
    (hne : A.id ≠ B.id)
    (hA : ∀ (aid : String) (r : Orch.TaskR),
        Orch.find_agent_by_type agents A.agent = some aid →
        Orch.execute_agent_task agents aid A = Except.ok r → r.success = false) :
    (∃ e, (Orch.execute_sequential_phase agents ph).1 = Except.error e) ∧
    B.id ∉ (Orch.execute_sequential_phase agents ph).2 := by
  have key : ∃ msg tr, Orch.seqLoop agents [A, B] [] [] = (Except.error msg, tr) ∧
      B.id ∉ tr := by
    by_cases hdep : Orch.check_task_dependencies A [] = true
    · rcases hfind : Orch.find_agent_by_type agents A.agent with _ | aid
      · refine ⟨"No agent found for type " ++ A.agent, [], ?_, by simp⟩
        simp [Orch.seqLoop, hdep, hfind]
      · rcases hexec : Orch.execute_agent_task agents aid A with e | r
        · refine ⟨e, [A.id], ?_, ?_⟩
          · simp [Orch.seqLoop, hdep, hfind, hexec]
          · simp only [List.mem_singleton]
            intro h
            exact hne h.symm
        · have hsucc : r.success = false := hA aid r hfind hexec
          refine ⟨"Task " ++ A.id ++ " failed: " ++ (r.error.getD "Unknown error"),
                  [A.id], ?_, ?_⟩
          · simp [Orch.seqLoop, hdep, hfind, hexec, hsucc]
          · simp only [List.mem_singleton]
            intro h
            exact hne h.symm
    · refine ⟨"Dependencies not met for task " ++ A.id, [], ?_, by simp⟩
      simp [Orch.seqLoop, hdep]
  obtain ⟨msg, tr, hseq, hmem⟩ := key
  constructor
  · exact ⟨msg, by simp [Orch.execute_sequential_phase, htasks, hseq, Except.map]⟩
  · simpa [Orch.execute_sequential_phase, htasks, hseq] using hmem

/-- Failing result returned by the concrete agent behind task A. -/
def c6failR : Orch.TaskR := { success := false, error := some "nope" }

/-- Concrete registry for the dependency-gating scenario: A's agent
returns a failed result, B's agent would succeed. -/
def c6agents : List Orch.OAgent :=
  [{ agent_id := "w1", name := "alpha", agent_type := none,
     behavior := fun _ => Except.ok c6failR },
   { agent_id := "w2", name := "gamma", agent_type := none,
     behavior := fun _ => Except.ok { success := true } }]

/-- Concrete task A for the dependency-gating scenario. -/
def c6A : Orch.OTask :=
  { id := "sA", agent := "alpha", description := "first",
    priority := Orch.TaskPriorityE.high, estimated_duration := 1, parameters := [] }

/-- Concrete task B, declaring a dependency on A. -/
def c6B : Orch.OTask :=
  { id := "sB", agent := "gamma", description := "second",
    priority := Orch.TaskPriorityE.high, estimated_duration := 1, parameters := [],
    dependencies := ["sA"] }

/-- Concrete sequential phase `[A, B]`. -/
def c6phase : Orch.OPhase :=
  { phase := Orch.DeploymentPhaseE.configuration, description := "demo",
    tasks := [c6A, c6B], parallel_execution := false }

/-- Claim C6, witness: at the concrete phase, A's failed result aborts the
phase and B is never dispatched. -/
theorem c6_witness :
    (∃ e, (Orch.execute_sequential_phase c6agents c6phase).1 = Except.error e) ∧
    "sB" ∉ (Orch.execute_sequential_phase c6agents c6phase).2 := by
  have h := c6_theorem c6agents c6A c6B c6phase rfl rfl (by decide) ?_
  · exact h
  · intro aid r h1 h2
    rw [show Orch.find_agent_by_type c6agents c6A.agent = some "w1" by decide] at h1
    injection h1 with h1
    subst h1
    rw [show Orch.execute_agent_task c6agents "w1" c6A = Except.ok c6failR from rfl] at h2
    injection h2 with h2
    subst h2
    rfl

/-- Successful result returned by the well-behaved concrete agents. -/
def c2okR : Orch.TaskR := { success := true, payload := some "done" }

/-- The claim's deployment request: domain, email, server ip and the
single service `n8n` — no project name. -/
def c2request : Orch.Request :=
  { domain := some "example.com", email := some "a@example.com",
    server_ip := some "10.0.0.5", services := some ["n8n"] }

/-- The same request extended with a project name, so that validation
passes. -/
def c2requestFull : Orch.Request :=
  { c2request with project_name := some "example-project" }

/-- A full registry: every planned agent type is registered and succeeds,
except the n8n agent whose capability call raises. -/
def c2agents : List Orch.OAgent :=
  [{ agent_id := "ag_server", name := "Base Server Setup Agent",
     agent_type := some "server_setup", behavior := fun _ => Except.ok c2okR },
   { agent_id := "ag_n8n", name := "N8N Deployment Agent",
     agent_type := some "n8n_deployment",
     behavior := fun _ => Except.error "N8N capability raised" },
   { agent_id := "ag_dns", name := "Cloudflare DNS Manager Agent",
     agent_type := some "dns_manager", behavior := fun _ => Except.ok c2okR },
   { agent_id := "ag_proxy", name := "Nginx Proxy Configurator Agent",
     agent_type := some "proxy_configurator", behavior := fun _ => Except.ok c2okR },
   { agent_id := "ag_validator", name := "System Validator Agent",
     agent_type := some "system_validator", behavior := fun _ => Except.ok c2okR },
   { agent_id := "ag_reporter", name := "Final Report Agent",
     agent_type := some "final_reporter", behavior := fun _ => Except.ok c2okR }]

/-- Claim C2, counterexample: for the request
`{domain: "example.com", email: "a@example.com", serverIp: "10.0.0.5",
services: ["n8n"]}` validation does NOT pass — `process_client_data` also
requires `project_name` and raises
`Missing required fields: ['project_name']`, so `deploy_infrastructure`
fails during initialization (phase at failure "initialization", not
"services") and no plan is ever built. -/
theorem c2_counterexample :
    Orch.process_client_data c2request
      = Except.error ("Missing required fields: " ++ pyReprStrList ["project_name"]) ∧
    (Orch.deploy_infrastructure c2agents c2request).success = false ∧
    (Orch.deploy_infrastructure c2agents c2request).error_report.map
      (fun er => er.phase_at_failure) = some "initialization" := by
  exact ⟨rfl, rfl, rfl⟩

/-- Claim C2, amended: the required request fields are `domain`, `email`,
`project_name` and `server_ip`, so the claim's request fails validation;
for the same request extended with a `project_name`, the master plan has
exactly 5 phases and its Services phase exactly the task `n8n_deployment`
— but when that task's agent capability raises, the parallel Services
phase records `success = false` while the deployment continues through
the remaining phases and `deploy_infrastructure` returns `success = true`
(only the final report's execution summary carries `success = false`). -/
theorem c2_amended :
    (Orch.process_client_data c2requestFull).isOk = true ∧
    (Orch.create_master_execution_plan c2requestFull).map (fun p => p.phases.length)
      = Except.ok 5 ∧
    (Orch.create_master_execution_plan c2requestFull).map
      (fun p => p.phases.map (fun ph => ph.tasks.map (fun t => t.id)))
      = Except.ok [["base_server_setup"], ["n8n_deployment"],
                   ["dns_configuration", "proxy_configuration"],
                   ["system_validation"], ["final_report"]] ∧
    (Orch.deploy_infrastructure c2agents c2requestFull).success = true ∧
    ((Orch.deploy_infrastructure c2agents c2requestFull).result.getD []).map
      (fun kv => (kv.1, kv.2.success))
      = [("infrastructure", true), ("services", false), ("configuration", true),
         ("validation", true), ("reporting", true)] ∧
    (Orch.deploy_infrastructure c2agents c2requestFull).final_report
      = some { phases_completed := 5, success := false } := by
  exact ⟨rfl, rfl, rfl, rfl, rfl, rfl⟩

namespace Orch

/-- Running a phase list that raises no error and then continuing is the
same as running the concatenation: the phase loop threads its accumulated
results, `current_phase` and dispatch trace. -/
theorem runPhases_append (agents : List OAgent) :
    ∀ (xs ys : List OPhase) (acc : List (String × PhaseResult))
      (cur : DeploymentPhaseE) (tr : List String),
      (runPhases agents xs acc cur tr).error = none →
      runPhases agents (xs ++ ys) acc cur tr =
        runPhases agents ys (runPhases agents xs acc cur tr).results
          (runPhases agents xs acc cur tr).current
          (runPhases agents xs acc cur tr).trace := by
  intro xs
  induction xs with
  | nil =>
    intro ys acc cur tr _
    simp [runPhases]
  | cons ph rest ih =>
    intro ys acc cur tr herr
    by_cases hpar : ph.parallel_execution = true
    · have h1 : runPhases agents (ph :: rest) acc cur tr
          = runPhases agents rest
              (pyInsert acc ph.phase.value (execute_parallel_phase agents ph).1)
              ph.phase (tr ++ (execute_parallel_phase agents ph).2) := by
        simp [runPhases, hpar]
      rw [List.cons_append]
      have h2 : runPhases agents (ph :: (rest ++ ys)) acc cur tr
          = runPhases agents (rest ++ ys)
              (pyInsert acc ph.phase.value (execute_parallel_phase agents ph).1)
              ph.phase (tr ++ (execute_parallel_phase agents ph).2) := by
        simp [runPhases, hpar]
      rw [h2, h1]
      exact ih ys _ _ _ (by rw [← h1]; exact herr)
    · rcases hseq : execute_sequential_phase agents ph with ⟨res, tr2⟩
      cases res with
      | ok pr =>
        have h1 : runPhases agents (ph :: rest) acc cur tr
            = runPhases agents rest (pyInsert acc ph.phase.value pr) ph.phase (tr ++ tr2) := by
          simp [runPhases, hpar, hseq]
        rw [List.cons_append]
        have h2 : runPhases agents (ph :: (rest ++ ys)) acc cur tr
            = runPhases agents (rest ++ ys)
                (pyInsert acc ph.phase.value pr) ph.phase (tr ++ tr2) := by
          simp [runPhases, hpar, hseq]
        rw [h2, h1]
        exact ih ys _ _ _ (by rw [← h1]; exact herr)
      | error e =>
        exfalso
        have h1 : runPhases agents (ph :: rest) acc cur tr
            = { error := some ("Deployment failed in phase " ++ ph.phase.value ++ ": " ++ e),
                results := acc, current := ph.phase, trace := tr ++ tr2 } := by
          simp [runPhases, hpar, hseq]
        rw [h1] at herr
        simp at herr

end Orch

/-- Claim C1, amended: after an error-free prefix of phases, (a) a
SEQUENTIAL phase whose execution raises aborts the deployment — the run
stops with the wrapped error, keeps exactly the prefix's results and
dispatch trace (no later phase is started), and records the failing phase
as `current_phase`; but (b) a PARALLEL phase never aborts the run — its
result (success flag included, possibly `false`) is recorded and execution
continues into the remaining phases regardless. -/
theorem c1_amended (agents : List Orch.OAgent) (pre : List Orch.OPhase)
    (p : Orch.OPhase) (post : List Orch.OPhase)
    (hpre : (Orch.runPhases agents pre [] Orch.DeploymentPhaseE.initialization []).error
      = none) :
    (∀ e, p.parallel_execution = false →
       (Orch.execute_sequential_phase agents p).1 = Except.error e →
       Orch.runPhases agents (pre ++ p :: post) [] Orch.DeploymentPhaseE.initialization []
         = { error := some ("Deployment failed in phase " ++ p.phase.value ++ ": " ++ e),
             results := (Orch.runPhases agents pre []
               Orch.DeploymentPhaseE.initialization []).results,
             current := p.phase,
             trace := (Orch.runPhases agents pre []
               Orch.DeploymentPhaseE.initialization []).trace
               ++ (Orch.execute_sequential_phase agents p).2 }) ∧
    (p.parallel_execution = true →
       Orch.runPhases agents (pre ++ p :: post) [] Orch.DeploymentPhaseE.initialization []
         = Orch.runPhases agents post
             (pyInsert (Orch.runPhases agents pre []
                 Orch.DeploymentPhaseE.initialization []).results
               p.phase.value (Orch.execute_parallel_phase agents p).1)
             p.phase
             ((Orch.runPhases agents pre []
                 Orch.DeploymentPhaseE.initialization []).trace
               ++ (Orch.execute_parallel_phase agents p).2)) := by
  rw [Orch.runPhases_append agents pre (p :: post) [] Orch.DeploymentPhaseE.initialization
    [] hpre]
  constructor
  · intro e hsf herr
    rcases hsp : Orch.execute_sequential_phase agents p with ⟨res, tr2⟩
    rw [hsp] at herr
    simp only at herr
    subst herr
    simp [Orch.runPhases, hsf, hsp]
  · intro hp
    simp [Orch.runPhases, hp]

/-- Failed n8n result (an aggregated `success: false`, not an exception). -/
def c1failR : Orch.TaskR := { success := false, error := some "n8n install failed" }

/-- Request for the C1 deployment scenario (all required fields, n8n). -/
def c1request : Orch.Request :=
  { domain := some "example.com", email := some "a@example.com",
    project_name := some "example-project", server_ip := some "10.0.0.5",
    services := some ["n8n"] }

/-- Registry in which the n8n agent's task comes back with
`success = false` while every other agent succeeds. -/
def c1agents : List Orch.OAgent :=
  [{ agent_id := "b_server", name := "Base Server Setup Agent",
     agent_type := some "server_setup", behavior := fun _ => Except.ok c2okR },
   { agent_id := "b_n8n", name := "N8N Deployment Agent",
     agent_type := some "n8n_deployment", behavior := fun _ => Except.ok c1failR },
   { agent_id := "b_dns", name := "Cloudflare DNS Manager Agent",
     agent_type := some "dns_manager", behavior := fun _ => Except.ok c2okR },
   { agent_id := "b_proxy", name := "Nginx Proxy Configurator Agent",
     agent_type := some "proxy_configurator", behavior := fun _ => Except.ok c2okR },
   { agent_id := "b_validator", name := "System Validator Agent",
     agent_type := some "system_validator", behavior := fun _ => Except.ok c2okR },
   { agent_id := "b_reporter", name := "Final Report Agent",
     agent_type := some "final_reporter", behavior := fun _ => Except.ok c2okR }]

/-- Claim C1, counterexample: the parallel Services phase aggregates
`success = false`, yet the deployment does NOT abort — every later phase
still runs and `deploy_infrastructure` reports overall `success = true`,
contradicting the claim that any phase failure aborts the deployment with
a failure result. -/
theorem c1_counterexample :
    ((pyLookup ((Orch.deploy_infrastructure c1agents c1request).result.getD [])
        "services").map (fun pr => pr.success) = some false) ∧
    (Orch.deploy_infrastructure c1agents c1request).success = true ∧
    ((Orch.deploy_infrastructure c1agents c1request).result.getD []).map
      (fun kv => kv.1)
      = ["infrastructure", "services", "configuration", "validation", "reporting"] := by
  exact ⟨rfl, rfl, rfl⟩

/-- Agent registry for the C1 witness: one agent whose task result is a
failure. -/
def c1wAgents : List Orch.OAgent :=
  [{ agent_id := "x1", name := "alpha", agent_type := none,
     behavior := fun _ => Except.ok { success := false, error := some "down" } }]

/-- Task dispatched in the C1 witness phases. -/
def c1wTask : Orch.OTask :=
  { id := "sv", agent := "alpha", description := "svc",
    priority := Orch.TaskPriorityE.high, estimated_duration := 1, parameters := [] }

/-- Failing sequential phase of the C1 witness. -/
def c1wSeq : Orch.OPhase :=
  { phase := Orch.DeploymentPhaseE.validation, description := "demo",
    tasks := [c1wTask], parallel_execution := false }

/-- Failing parallel phase of the C1 witness. -/
def c1wPar : Orch.OPhase :=
  { phase := Orch.DeploymentPhaseE.services, description := "demo",
    tasks := [c1wTask], parallel_execution := true }

/-- Trailing phase of the C1 witness (an empty sequential phase). -/
def c1wPost : Orch.OPhase :=
  { phase := Orch.DeploymentPhaseE.reporting, description := "demo",
    tasks := [], parallel_execution := false }

/-- Claim C1, witness: the amended theorem applied at concrete phases — a
failing sequential phase aborts before the trailing phase, and a failing
parallel phase hands control on to the trailing phase. -/
theorem c1_witness :
    ((Orch.runPhases c1wAgents [] [] Orch.DeploymentPhaseE.initialization []).error
      = none) ∧
    (Orch.runPhases c1wAgents ([] ++ c1wSeq :: [c1wPost]) []
        Orch.DeploymentPhaseE.initialization []
      = { error := some ("Deployment failed in phase " ++ c1wSeq.phase.value ++ ": "
            ++ "Task sv failed: down"),
          results := (Orch.runPhases c1wAgents [] []
            Orch.DeploymentPhaseE.initialization []).results,
          current := c1wSeq.phase,
          trace := (Orch.runPhases c1wAgents [] []
            Orch.DeploymentPhaseE.initialization []).trace
            ++ (Orch.execute_sequential_phase c1wAgents c1wSeq).2 }) ∧
    (Orch.runPhases c1wAgents ([] ++ c1wPar :: [c1wPost]) []
        Orch.DeploymentPhaseE.initialization []
      = Orch.runPhases c1wAgents [c1wPost]
          (pyInsert (Orch.runPhases c1wAgents [] []
              Orch.DeploymentPhaseE.initialization []).results
            c1wPar.phase.value (Orch.execute_parallel_phase c1wAgents c1wPar).1)
          c1wPar.phase
          ((Orch.runPhases c1wAgents [] []
              Orch.DeploymentPhaseE.initialization []).trace
            ++ (Orch.execute_parallel_phase c1wAgents c1wPar).2)) := by
  have h1 := c1_amended c1wAgents [] c1wSeq [c1wPost] rfl
  have h2 := c1_amended c1wAgents [] c1wPar [c1wPost] rfl
  exact ⟨rfl, h1.1 "Task sv failed: down" rfl rfl, h2.2 rfl⟩

namespace Orch

/-- A successful prefix of the sequential task loop composes: running the
concatenation continues from the prefix's accumulated results and trace. -/
theorem seqLoop_append (agents : List OAgent) :
    ∀ (xs ys : List OTask) (acc : List (String × TaskR)) (tr : List String)
      (acc' : List (String × TaskR)) (tr' : List String),
      seqLoop agents xs acc tr = (Except.ok acc', tr') →
      seqLoop agents (xs ++ ys) acc tr = seqLoop agents ys acc' tr' := by
  intro xs
  induction xs with
  | nil =>
    intro ys acc tr acc' tr' h
    simp [seqLoop] at h
    rw [List.nil_append, h.1, h.2]
  | cons task rest ih =>
    intro ys acc tr acc' tr' h
    by_cases hdep : check_task_dependencies task acc = true
    · rcases hfind : find_agent_by_type agents task.agent with _ | aid
      · simp [seqLoop, hdep, hfind] at h
      · rcases hexec : execute_agent_task agents aid task with e | r
        · simp [seqLoop, hdep, hfind, hexec] at h
        · by_cases hs : r.success = true
          · have h' : seqLoop agents rest (pyInsert acc task.id r) (tr ++ [task.id])
                = (Except.ok acc', tr') := by
              simpa [seqLoop, hdep, hfind, hexec, hs] using h
            have hgoal : seqLoop agents ((task :: rest) ++ ys) acc tr
                = seqLoop agents (rest ++ ys) (pyInsert acc task.id r) (tr ++ [task.id]) := by
              simp [seqLoop, hdep, hfind, hexec, hs]
            rw [hgoal]
            exact ih ys _ _ _ _ h'
          · simp [seqLoop, hdep, hfind, hexec, hs] at h
    · simp [seqLoop, hdep] at h

/-- In a parallel phase the dispatch trace covers exactly the tasks whose
agent resolves: unresolvable tasks are never handed to any agent. -/
theorem execute_parallel_phase_trace (agents : List OAgent) (ph : OPhase) :
    (execute_parallel_phase agents ph).2
      = (ph.tasks.filter (fun tk => (find_agent_by_type agents tk.agent).isSome)).map
          (fun tk => tk.id) := by
  show ((ph.tasks.filterMap (fun task =>
      (find_agent_by_type agents task.agent).map (fun aid => (aid, task)))).map
      (fun p => p.2.id)) = _
  induction ph.tasks with
  | nil => rfl
  | cons tk rest ih =>
    rcases hfind : find_agent_by_type agents tk.agent with _ | aid <;>
      simp [List.filterMap_cons, hfind, ih]

/-- If no task of a parallel phase resolves to an agent, the phase records
no task result at all and still reports `success = true`. -/
theorem execute_parallel_phase_skip_all (agents : List OAgent) (ph : OPhase)
    (h : ∀ tk ∈ ph.tasks, find_agent_by_type agents tk.agent = none) :
    (execute_parallel_phase agents ph).1.task_results = [] ∧
    (execute_parallel_phase agents ph).1.success = true := by
  have hd : ph.tasks.filterMap (fun task =>
      (find_agent_by_type agents task.agent).map (fun aid => (aid, task))) = [] := by
    rw [List.filterMap_eq_nil_iff]
    intro a ha
    rw [h a ha]
    rfl
  constructor <;> simp [execute_parallel_phase, hd]

end Orch

/-- Claim C3, amended: a task whose logical agent name resolves to no
registered agent is a hard failure ONLY in sequential phases — once the
loop reaches it, the phase aborts with `No agent found for type ...` and
the task is never dispatched.  In parallel phases such a task is silently
skipped instead: it is never dispatched, no failure is recorded for it,
and a parallel phase none of whose tasks resolve reports `success = true`
with an empty result map (moreover the gathered results of the remaining
tasks are keyed by position, so after a skip they can be attributed to the
wrong task ids). -/
theorem c3_amended (agents : List Orch.OAgent) (pre : List Orch.OTask)
    (t : Orch.OTask) (post : List Orch.OTask) (acc : List (String × Orch.TaskR))
    (tr : List String) (ph : Orch.OPhase)
    (htasks : ph.tasks = pre ++ t :: post)
    (hpre : Orch.seqLoop agents pre [] [] = (Except.ok acc, tr))
    (hdep : Orch.check_task_dependencies t acc = true)
    (hfind : Orch.find_agent_by_type agents t.agent = none) :
    ((Orch.execute_sequential_phase agents ph).1
       = Except.error ("No agent found for type " ++ t.agent)) ∧
    ((Orch.execute_sequential_phase agents ph).2 = tr) ∧
    (∀ ph2 : Orch.OPhase, (Orch.execute_parallel_phase agents ph2).2
       = (ph2.tasks.filter (fun tk =>
           (Orch.find_agent_by_type agents tk.agent).isSome)).map (fun tk => tk.id)) ∧
    (∀ ph2 : Orch.OPhase,
       (∀ tk ∈ ph2.tasks, Orch.find_agent_by_type agents tk.agent = none) →
       (Orch.execute_parallel_phase agents ph2).1.task_results = [] ∧
       (Orch.execute_parallel_phase agents ph2).1.success = true) := by
  have hloop : Orch.seqLoop agents (pre ++ t :: post) [] []
      = (Except.error ("No agent found for type " ++ t.agent), tr) := by
    rw [Orch.seqLoop_append agents pre (t :: post) [] [] acc tr hpre]
    simp [Orch.seqLoop, hdep, hfind]
  refine ⟨?_, ?_, fun ph2 => Orch.execute_parallel_phase_trace agents ph2,
          fun ph2 h => Orch.execute_parallel_phase_skip_all agents ph2 h⟩
  · simp [Orch.execute_sequential_phase, htasks, hloop, Except.map]
  · simp [Orch.execute_sequential_phase, htasks, hloop]

/-- A task whose logical agent name resolves to nothing. -/
def c3task : Orch.OTask :=
  { id := "t1", agent := "ghost_agent", description := "orphan",
    priority := Orch.TaskPriorityE.high, estimated_duration := 1, parameters := [] }

/-- Parallel phase holding only the unresolvable task. -/
def c3phase : Orch.OPhase :=
  { phase := Orch.DeploymentPhaseE.services, description := "demo",
    tasks := [c3task], parallel_execution := true }

/-- Sequential phase holding only the unresolvable task. -/
def c3seqPhase : Orch.OPhase :=
  { phase := Orch.DeploymentPhaseE.services, description := "demo",
    tasks := [c3task], parallel_execution := false }

/-- Three-task parallel phase whose middle task is unresolvable. -/
def c3misPhase : Orch.OPhase :=
  { phase := Orch.DeploymentPhaseE.services, description := "demo",
    tasks := [{ c3task with id := "tA", agent := "alpha" },
              { c3task with id := "tB", agent := "ghost" },
              { c3task with id := "tC", agent := "gamma" }],
    parallel_execution := true }

/-- Registry resolving only the first and third task of `c3misPhase`. -/
def c3misAgents : List Orch.OAgent :=
  [{ agent_id := "m1", name := "alpha", agent_type := none,
     behavior := fun _ => Except.ok { success := true, payload := some "A" } },
   { agent_id := "m3", name := "gamma", agent_type := none,
     behavior := fun _ => Except.ok { success := true, payload := some "C" } }]

/-- Claim C3, counterexample: in a parallel phase, a task whose agent does
not resolve is NOT recorded as a failure — with an empty registry the
phase reports `success = true` with an empty result map and an empty
dispatch trace; and with a partially resolvable phase the surviving
results are keyed to the WRONG task ids (`tB` receives `tC`'s result and
`tC`'s entry vanishes), contradicting the claim that every unresolvable
task produces a recorded "no agent found" failure. -/
theorem c3_counterexample :
    Orch.find_agent_by_type [] c3task.agent = none ∧
    (Orch.execute_parallel_phase [] c3phase).1.success = true ∧
    (Orch.execute_parallel_phase [] c3phase).1.task_results = [] ∧
    (Orch.execute_parallel_phase [] c3phase).2 = [] ∧
    ((Orch.execute_parallel_phase c3misAgents c3misPhase).1.task_results.map
      (fun kv => (kv.1, kv.2.payload)))
      = [("tA", some "A"), ("tB", some "C")] := by
  exact ⟨rfl, rfl, rfl, rfl, rfl⟩

/-- Claim C3, witness: the amended theorem applied at the concrete
sequential phase around the unresolvable task. -/
theorem c3_witness :
    ((Orch.execute_sequential_phase [] c3seqPhase).1
      = Except.error ("No agent found for type " ++ c3task.agent)) ∧
    ((Orch.execute_sequential_phase [] c3seqPhase).2 = []) ∧
    (Orch.execute_parallel_phase [] c3phase).1.task_results = [] := by
  have h := c3_amended [] [] c3task [] [] [] c3seqPhase rfl rfl rfl rfl
  exact ⟨h.1, h.2.1, (h.2.2.2 c3phase (by intro tk htk; cases htk with
    | head => rfl
    | tail _ h2 => cases h2)).1⟩

namespace Orch

/-- `all` over a mapped list tests the composite predicate. -/
theorem list_all_map {α β : Type} (l : List α) (f : α → β) (p : β → Bool) :
    (l.map f).all p = l.all (fun x => p (f x)) := by
  induction l with
  | nil => rfl
  | cons x rest ih => simp [ih]

/-- Inserting a fresh key into a dict appends it. -/
theorem pyInsert_fresh {α : Type} (m : List (String × α)) (k : String) (v : α)
    (h : ∀ kv ∈ m, kv.1 ≠ k) : pyInsert m k v = m ++ [(k, v)] := by
  unfold pyInsert
  rw [if_neg]
  simp only [List.any_eq_true, decide_eq_true_eq, not_exists, not_and]
  intro kv hkv
  exact h kv hkv

/-- Folding dict insertions of pairwise-fresh task-keyed values just
appends them in order. -/
theorem foldl_pyInsert_fresh {α : Type} :
    ∀ (ps : List (OTask × α)) (acc : List (String × α)),
      (∀ p ∈ ps, ∀ kv ∈ acc, kv.1 ≠ p.1.id) →
      (ps.map (fun p => p.1.id)).Nodup →
      ps.foldl (fun m p => pyInsert m p.1.id p.2) acc
        = acc ++ ps.map (fun p => (p.1.id, p.2)) := by
  intro ps
  induction ps with
  | nil =>
    intro acc _ _
    simp
  | cons p rest ih =>
    intro acc hfresh hnd
    have hstep : pyInsert acc p.1.id p.2 = acc ++ [(p.1.id, p.2)] :=
      pyInsert_fresh acc p.1.id p.2
        (fun kv hkv => hfresh p (List.mem_cons_self _ _) kv hkv)
    have hnd' := (List.nodup_cons.mp hnd).2
    have hhead := (List.nodup_cons.mp hnd).1
    have hfresh' : ∀ q ∈ rest, ∀ kv ∈ acc ++ [(p.1.id, p.2)], kv.1 ≠ q.1.id := by
      intro q hq kv hkv
      rcases List.mem_append.mp hkv with h1 | h1
      · exact hfresh q (List.mem_cons_of_mem _ hq) kv h1
      · rcases List.mem_singleton.mp h1 with rfl
        intro hc
        apply hhead
        simp only [List.mem_map]
        exact ⟨q, hq, hc.symm⟩
    calc (p :: rest).foldl (fun m q => pyInsert m q.1.id q.2) acc
        = rest.foldl (fun m q => pyInsert m q.1.id q.2) (pyInsert acc p.1.id p.2) := rfl
      _ = rest.foldl (fun m q => pyInsert m q.1.id q.2) (acc ++ [(p.1.id, p.2)]) := by
          rw [hstep]
      _ = (acc ++ [(p.1.id, p.2)]) ++ rest.map (fun q => (q.1.id, q.2)) :=
          ih _ hfresh' hnd'
      _ = acc ++ (p :: rest).map (fun q => (q.1.id, q.2)) := by
          simp

/-- The result an individual parallel task contributes once dispatched
(composition of agent resolution, execution and the gather conversion);
the `none` branch is unreachable when every task resolves. -/
def resolvedOutcome (agents : List OAgent) (tk : OTask) : TaskR :=
  match find_agent_by_type agents tk.agent with
  | some aid => gatherConvert (execute_agent_task agents aid tk)
  | none => { success := false, error := some ("No agent found for type " ++ tk.agent) }

/-- When every task resolves, zipping the task list against the gathered
outcomes pairs each task with exactly its own outcome. -/
theorem par_pairs (agents : List OAgent) :
    ∀ (tasks : List OTask),
      (∀ tk ∈ tasks, (find_agent_by_type agents tk.agent).isSome = true) →
      tasks.zip ((tasks.filterMap (fun task =>
          (find_agent_by_type agents task.agent).map (fun aid => (aid, task)))).map
        (fun p => gatherConvert (execute_agent_task agents p.1 p.2)))
        = tasks.map (fun tk => (tk, resolvedOutcome agents tk)) := by
  intro tasks
  induction tasks with
  | nil =>
    intro _
    rfl
  | cons tk rest ih =>
    intro h
    obtain ⟨aid, haid⟩ := Option.isSome_iff_exists.mp (h tk (List.mem_cons_self _ _))
    have hrest := ih (fun x hx => h x (List.mem_cons_of_mem _ hx))
    simp only [List.filterMap_cons, haid, Option.map_some', List.map_cons,
      List.zip_cons_cons, hrest]
    rw [show resolvedOutcome agents tk
        = gatherConvert (execute_agent_task agents aid tk) by
      simp [resolvedOutcome, haid]]

/-- Looking a member's id up in the mapped dict returns that member's
value when the ids are distinct. -/
theorem pyLookup_map_nodup {α : Type} (f : OTask → α) :
    ∀ (l : List OTask) (tk : OTask),
      (l.map (fun x => x.id)).Nodup → tk ∈ l →
      pyLookup (l.map (fun x => (x.id, f x))) tk.id = some (f tk) := by
  intro l
  induction l with
  | nil =>
    intro tk _ h
    cases h
  | cons x rest ih =>
    intro tk hnd hmem
    rcases List.mem_cons.mp hmem with he | hm
    · subst he
      simp [pyLookup]
    · have hx : x.id ≠ tk.id := by
        intro hq
        apply (List.nodup_cons.mp hnd).1
        simp only [List.mem_map]
        exact ⟨tk, hm, hq.symm⟩
      simp only [List.map_cons, pyLookup, if_neg hx]
      exact ih tk (List.nodup_cons.mp hnd).2 hm

end Orch

/-- Claim C7: in a parallel phase all of whose tasks resolve to agents
(and whose task ids are distinct), the per-task result map has exactly one
entry per task in order, each task keeps exactly its own agent's outcome
(a failed task contributing `{success: false, error}` through the gather
conversion, successful siblings keeping their successful results), and the
phase's `success` flag is the conjunction of every task's individual
success. -/
theorem c7_theorem (agents : List Orch.OAgent) (ph : Orch.OPhase)
    (hres : ∀ tk ∈ ph.tasks, (Orch.find_agent_by_type agents tk.agent).isSome = true)
    (hnodup : (ph.tasks.map (fun tk => tk.id)).Nodup) :
    ((Orch.execute_parallel_phase agents ph).1.task_results
       = ph.tasks.map (fun tk => (tk.id, Orch.resolvedOutcome agents tk))) ∧
    (∀ tk ∈ ph.tasks, ∀ aid, Orch.find_agent_by_type agents tk.agent = some aid →
       pyLookup (Orch.execute_parallel_phase agents ph).1.task_results tk.id
         = some (Orch.gatherConvert (Orch.execute_agent_task agents aid tk))) ∧
    ((Orch.execute_parallel_phase agents ph).1.success
       = ph.tasks.all (fun tk => (Orch.resolvedOutcome agents tk).success)) ∧
    (((Orch.execute_parallel_phase agents ph).1.success = true) ↔
       ∀ tk ∈ ph.tasks, ∀ aid, Orch.find_agent_by_type agents tk.agent = some aid →
         (Orch.gatherConvert (Orch.execute_agent_task agents aid tk)).success = true) := by
  have hpairs := Orch.par_pairs agents ph.tasks hres
  have htr : (Orch.execute_parallel_phase agents ph).1.task_results
      = ph.tasks.map (fun tk => (tk.id, Orch.resolvedOutcome agents tk)) := by
    show (ph.tasks.zip ((ph.tasks.filterMap (fun task =>
        (Orch.find_agent_by_type agents task.agent).map (fun aid => (aid, task)))).map
      (fun p => Orch.gatherConvert (Orch.execute_agent_task agents p.1 p.2)))).foldl
        (fun acc p => pyInsert acc p.1.id p.2) [] = _
    rw [hpairs]
    rw [Orch.foldl_pyInsert_fresh _ [] (by simp) (by simpa [List.map_map] using hnodup)]
    simp [List.map_map]
  have hsucc : (Orch.execute_parallel_phase agents ph).1.success
      = ph.tasks.all (fun tk => (Orch.resolvedOutcome agents tk).success) := by
    show ((ph.tasks.zip ((ph.tasks.filterMap (fun task =>
        (Orch.find_agent_by_type agents task.agent).map (fun aid => (aid, task)))).map
      (fun p => Orch.gatherConvert (Orch.execute_agent_task agents p.1 p.2)))).foldl
        (fun acc p => pyInsert acc p.1.id p.2) []).all (fun kv => kv.2.success) = _
    rw [hpairs]
    rw [Orch.foldl_pyInsert_fresh _ [] (by simp) (by simpa [List.map_map] using hnodup)]
    simp only [List.nil_append, List.map_map]
    rw [Orch.list_all_map]
    exact congrArg (List.all ph.tasks) (funext fun tk => rfl)
  refine ⟨htr, ?_, hsucc, ?_⟩
  · intro tk hm aid haid
    rw [htr, Orch.pyLookup_map_nodup (fun tk => Orch.resolvedOutcome agents tk)
      ph.tasks tk hnodup hm]
    simp [Orch.resolvedOutcome, haid]
  · rw [hsucc, List.all_eq_true]
    constructor
    · intro h tk hm aid haid
      have := h tk hm
      rw [Orch.resolvedOutcome, haid] at this
      exact this
    · intro h tk hm
      obtain ⟨aid, haid⟩ := Option.isSome_iff_exists.mp (hres tk hm)
      rw [Orch.resolvedOutcome, haid]
      exact h tk hm aid haid

/-- Three-task parallel phase for the fan-in scenario. -/
def c7phase : Orch.OPhase :=
  { phase := Orch.DeploymentPhaseE.services, description := "demo",
    tasks := [{ c3task with id := "tA", agent := "alpha" },
              { c3task with id := "tB", agent := "beta" },
              { c3task with id := "tC", agent := "gamma" }],
    parallel_execution := true }

/-- Registry for the fan-in scenario: the middle task's agent raises. -/
def c7agents : List Orch.OAgent :=
  [{ agent_id := "f1", name := "alpha", agent_type := none,
     behavior := fun _ => Except.ok { success := true, payload := some "A" } },
   { agent_id := "f2", name := "beta", agent_type := none,
     behavior := fun _ => Except.error "kaput" },
   { agent_id := "f3", name := "gamma", agent_type := none,
     behavior := fun _ => Except.ok { success := true, payload := some "C" } }]

/-- Claim C7, witness: at the concrete three-task phase where task 2's
agent raises, the phase result keeps all three entries — tasks 1 and 3
successful, task 2 failed with the raised error — and the aggregated
`success` is `false`. -/
theorem c7_witness :
    (∀ tk ∈ c7phase.tasks, (Orch.find_agent_by_type c7agents tk.agent).isSome = true) ∧
    ((Orch.execute_parallel_phase c7agents c7phase).1.task_results
      = c7phase.tasks.map (fun tk => (tk.id, Orch.resolvedOutcome c7agents tk))) ∧
    ((Orch.execute_parallel_phase c7agents c7phase).1.success = false) ∧
    ((Orch.execute_parallel_phase c7agents c7phase).1.task_results.map
       (fun kv => (kv.1, kv.2.success, kv.2.error))
      = [("tA", true, none), ("tB", false, some "kaput"), ("tC", true, none)]) := by
  have h := c7_theorem c7agents c7phase (by decide) (by decide)
  exact ⟨by decide, h.1, rfl, rfl⟩
